import Mathlib

/-!
Shallow embedding of the connection-resilience engine of the
browser-robot repository: the `MCPService` connection state machine and
its quality metrics (`src/api/services` MCP service), the
`ConnectionMonitor` auto-recovery policy, the `BrowserService` idle
sweep and call gateway, and the `GPTService` instruction translation
fallback.  Numbers are modelled as `Nat`/`Int`/`Rat`; JavaScript
`Math.round` on nonnegative values is Mathlib's `round` on `ℚ`
(both are floor of x + 1/2).
-/

namespace BrowserRobot

/-! ## Quality metrics accumulator (MCPService.connectionQualityMetrics) -/

/-- State of the `connectionQualityMetrics` record of `MCPService`. -/
structure QualityMetrics where
  totalConnections : ℕ
  successfulConnections : ℕ
  failedConnections : ℕ
  lastSuccessfulConnectionTime : ℕ
  fastConnections : ℕ
  slowConnections : ℕ
  deriving Repr, DecidableEq

/-- Initial value of `connectionQualityMetrics` (all counters zero). -/
def QualityMetrics.init : QualityMetrics :=
  { totalConnections := 0
    successfulConnections := 0
    failedConnections := 0
    lastSuccessfulConnectionTime := 0
    fastConnections := 0
    slowConnections := 0 }

/-- The two ways `initialize()` touches the quality metrics: the success
path (source lines 124-133, with the measured connection time and the
current clock) and the failure path (source lines 152-153). -/
inductive MetricsOp where
  | success (connectionTime : ℕ) (now : ℕ)
  | failure
  deriving Repr, DecidableEq

/-- Effect of one connect attempt on the metrics, as written in
`initialize()`: the success path increments `totalConnections`,
`successfulConnections`, stamps `lastSuccessfulConnectionTime` and
classifies the speed (< 2000 ms fast, > 5000 ms slow); the failure path
increments `totalConnections` and `failedConnections`. -/
def applyMetricsOp (m : QualityMetrics) (op : MetricsOp) : QualityMetrics :=
  match op with
  | .success connectionTime now =>
      let m1 := { m with
        totalConnections := m.totalConnections + 1
        successfulConnections := m.successfulConnections + 1
        lastSuccessfulConnectionTime := now }
      if connectionTime < 2000 then
        { m1 with fastConnections := m1.fastConnections + 1 }
      else if connectionTime > 5000 then
        { m1 with slowConnections := m1.slowConnections + 1 }
      else m1
  | .failure =>
      { m with
        totalConnections := m.totalConnections + 1
        failedConnections := m.failedConnections + 1 }

/-- Metrics after a whole history of connect attempts, starting from the
all-zero record. -/
def runMetrics (ops : List MetricsOp) : QualityMetrics :=
  ops.foldl applyMetricsOp QualityMetrics.init

/-! ## Quality score (MCPService.calculateConnectionQuality) -/

/-- Transcription of `calculateConnectionQuality` (source lines 237-247):
`Math.round((successRate * 0.7 + fastConnectionRate * 0.3) * 100)`, and
0 when `totalConnections === 0`. -/
def calculateConnectionQuality (m : QualityMetrics) : ℤ :=
  if m.totalConnections = 0 then 0
  else
    let successRate : ℚ := (m.successfulConnections : ℚ) / (m.totalConnections : ℚ)
    let fastConnectionRate : ℚ := (m.fastConnections : ℚ) / (m.totalConnections : ℚ)
    round ((successRate * (7 / 10) + fastConnectionRate * (3 / 10)) * 100)

/-- Modelled from the spec: the quality-score formula as the spec words it,
`round(100 * (0.7 * successRate + 0.3 * fastAttemptRate))`, 0 when there
was no attempt. -/
def specQualityScore (m : QualityMetrics) : ℤ :=
  if m.totalConnections = 0 then 0
  else
    round ((100 : ℚ) * ((7 / 10) * ((m.successfulConnections : ℚ) / (m.totalConnections : ℚ))
      + (3 / 10) * ((m.fastConnections : ℚ) / (m.totalConnections : ℚ))))

/-! ## Backoff calculator (MCPService.calculateReconnectDelay) -/

/-- Transcription of `calculateReconnectDelay` (source lines 727-734):
`min(baseDelay * 2^(reconnectAttempts - 1) + jitter, 30000)`, with the
current base delay, the attempt number, and the sampled jitter passed
explicitly. -/
def calculateReconnectDelay (baseDelay : ℚ) (attempt : ℕ) (jitter : ℚ) : ℚ :=
  min (baseDelay * 2 ^ (attempt - 1) + jitter) 30000

/-- Modelled from the spec: `delay(attempt) = min(base * 2^(attempt-1) + jitter, cap)`. -/
def specBackoffDelay (base : ℚ) (attempt : ℕ) (jitter cap : ℚ) : ℚ :=
  min (base * 2 ^ (attempt - 1) + jitter) cap

/-! ## String utilities used by the error heuristics

JavaScript compares `errorMessage.toLowerCase().includes(pattern)`.
Strings are modelled as their character lists; lowercasing is the ASCII
case fold (the patterns are ASCII or Chinese, which `toLowerCase` leaves
unchanged). -/

/-- ASCII case fold of one character, as JavaScript `toLowerCase` acts on
the characters occurring in the services' error messages and patterns. -/
def lowerChar (c : Char) : Char :=
  if 'A' ≤ c ∧ c ≤ 'Z' then Char.ofNat (c.toNat + 32) else c

/-- Whether `pat` occurs at the start of `s`. -/
def charListHasPre : List Char → List Char → Bool
  | _, [] => true
  | [], _ :: _ => false
  | a :: s, b :: p => a == b && charListHasPre s p

/-- Whether `pat` occurs contiguously anywhere in `s`
(JavaScript `String.prototype.includes`). -/
def charListHasSub (s pat : List Char) : Bool :=
  match s with
  | [] => pat.isEmpty
  | _ :: t => charListHasPre s pat || charListHasSub t pat

/-- JavaScript `s.includes(pat)` on Lean strings. -/
def strHasSub (s pat : String) : Bool := charListHasSub s.data pat.data

/-- JavaScript `s.toLowerCase().includes(pat)`. -/
def strHasSubLower (s pat : String) : Bool :=
  charListHasSub (s.data.map lowerChar) pat.data

/-- A JavaScript error as the heuristics see it: its `message` and its
optional `code`. -/
structure JsError where
  message : String
  code : String
  deriving Repr, DecidableEq

/-! ## Connection-error heuristic (MCPService.isConnectionError, source lines 872-902) -/

/-- Message substrings that `MCPService.isConnectionError` treats as
connection related. -/
def mcpConnectionErrorPatterns : List String :=
  ["connection", "connect", "network", "timeout", "refused",
   "reset", "closed", "disconnected", "unreachable"]

/-- Error codes that `MCPService.isConnectionError` treats as connection
related. -/
def mcpConnectionErrorCodes : List String :=
  ["ECONNREFUSED", "ECONNRESET", "ETIMEDOUT", "ENOTFOUND", "ENETUNREACH", "EPIPE"]

/-- Transcription of `MCPService.isConnectionError`: the lowercased
message contains one of the patterns, or the code is one of the listed
codes. -/
def isConnectionError (e : JsError) : Bool :=
  mcpConnectionErrorPatterns.any (fun p => strHasSubLower e.message p)
    || mcpConnectionErrorCodes.contains e.code

/-! ## Connection-error heuristic (BrowserService.isConnectionError, source lines 744-763) -/

/-- Message substrings that `BrowserService.isConnectionError` checks
(both sides lowercased). -/
def browserConnectionErrorPatterns : List String :=
  ["connection", "disconnect", "timeout", "ECONNRESET", "EPIPE",
   "socket", "transport", "未连接", "not connected"]

/-- Transcription of `BrowserService.isConnectionError`: the lowercased
message contains one of the lowercased patterns. -/
def browserIsConnectionError (e : JsError) : Bool :=
  browserConnectionErrorPatterns.any (fun p =>
    charListHasSub (e.message.data.map lowerChar) (p.data.map lowerChar))

/-! ## Tool invocation gateway (MCPService.callTool, source lines 252-289)

The remote call and the reconnection attempt are effects; they enter the
model as explicit outcomes: the first call's result, whether
`attemptReconnect()` threw, the connection flag after it, and the
retried call's result.  The function returns the result `callTool`
settles with together with the number of remote `client.callTool`
invocations it issued. -/

/-- Error thrown by `callTool`/`listTools` when the client is absent or
not connected (message `'MCP 服务未连接'`). -/
def notConnectedError : JsError := ⟨"MCP 服务未连接", ""⟩

/-- The body of `MCPService.callTool`'s `try` block: throw
`notConnectedError` when there is no connected client, otherwise issue
the remote call once. -/
def mcpCallToolBody (connected : Bool) (first : Except JsError α) :
    Except JsError α × ℕ :=
  if !connected then (.error notConnectedError, 0)
  else
    match first with
    | .ok r => (.ok r, 1)
    | .error e => (.error e, 1)

/-- Transcription of `MCPService.callTool`: on an error matching
`isConnectionError`, attempt one reconnect; when it lands connected,
retry the remote call once; a retry failure is caught by the inner
`catch (reconnectError)` and the function then rethrows the original
error `error`. -/
def mcpCallTool (connected : Bool) (first : Except JsError α)
    (reconnectThrows : Bool) (connectedAfter : Bool)
    (retry : Except JsError α) : Except JsError α × ℕ :=
  let body := mcpCallToolBody connected first
  match body.1 with
  | .ok r => (.ok r, body.2)
  | .error e =>
    if isConnectionError e then
      if reconnectThrows then (.error e, body.2)
      else if connectedAfter then
        match retry with
        | .ok r => (.ok r, body.2 + 1)
        | .error _ => (.error e, body.2 + 1)
      else (.error e, body.2)
    else (.error e, body.2)

/-! ## Tool invocation gateway (BrowserService.callTool, source lines 211-256)

`mcpService.callTool` is the delegate remote call here; `connect()`
outcomes are passed explicitly (`none` = returned normally,
`some e` = threw `e`). -/

/-- Error thrown by `BrowserService.callTool` when the service is still
disconnected after its in-body `connect()`. -/
def connectFailedError : JsError := ⟨"MCP 服务连接失败", ""⟩

/-- The body of `BrowserService.callTool`'s outer `try`: connect if
needed (propagating a `connect()` failure), then issue the delegate call
once. -/
def browserCallToolBody (mcpConnected : Bool) (connectErr : Option JsError)
    (connectedAfter : Bool) (first : Except JsError α) :
    Except JsError α × ℕ :=
  if !mcpConnected then
    match connectErr with
    | some e => (.error e, 0)
    | none =>
      if !connectedAfter then (.error connectFailedError, 0)
      else
        match first with
        | .ok r => (.ok r, 1)
        | .error e => (.error e, 1)
  else
    match first with
    | .ok r => (.ok r, 1)
    | .error e => (.error e, 1)

/-- Transcription of `BrowserService.callTool`: on an error matching
`browserIsConnectionError`, reset state, reconnect and retry the
delegate once inside an inner `try`; anything failing there is rethrown
as `retryError` itself. -/
def browserCallTool (mcpConnected : Bool) (connectErr : Option JsError)
    (connectedAfter : Bool) (first : Except JsError α)
    (reconnectErr : Option JsError) (retry : Except JsError α) :
    Except JsError α × ℕ :=
  let body := browserCallToolBody mcpConnected connectErr connectedAfter first
  match body.1 with
  | .ok r => (.ok r, body.2)
  | .error e =>
    if browserIsConnectionError e then
      match reconnectErr with
      | some ce => (.error ce, body.2)
      | none =>
        match retry with
        | .ok r => (.ok r, body.2 + 1)
        | .error e2 => (.error e2, body.2 + 1)
    else (.error e, body.2)

/-! ## Connection state machine (MCPService fields and lifecycle methods) -/

/-- The `MCPService` fields the lifecycle methods read and write. -/
structure MCPState where
  clientPresent : Bool
  transportPresent : Bool
  isConnected : Bool
  reconnectAttempts : ℕ
  isReconnecting : Bool
  lastConnectionTime : ℕ
  healthCheckActive : Bool
  cacheSize : ℕ
  deriving Repr, DecidableEq

/-- Effect of `forceDisconnect` (source lines 907-941) on the service
fields: clear the connected flag, stop the health check, drop the client
and the transport, clear the connection cache.  `lastConnectionTime` and
`reconnectAttempts` are untouched. -/
def forceDisconnectState (s : MCPState) : MCPState :=
  { s with
    isConnected := false
    healthCheckActive := false
    clientPresent := false
    transportPresent := false
    cacheSize := 0 }

/-- Effect of `disconnect` (source lines 946-974) on the service fields:
identical field updates to `forceDisconnectState` (close errors are
swallowed).  `lastConnectionTime` and `reconnectAttempts` are
untouched. -/
def disconnectState (s : MCPState) : MCPState :=
  { s with
    isConnected := false
    healthCheckActive := false
    clientPresent := false
    transportPresent := false
    cacheSize := 0 }

/-- Effect of `handleReconnectionFailure` (source lines 823-842), which
runs when `reconnectAttempts >= maxReconnectAttempts`: stop the health
check, force-disconnect, and reset `isConnected`, `isReconnecting` and
`reconnectAttempts := 0`. -/
def handleReconnectionFailure (s : MCPState) : MCPState :=
  let s1 := forceDisconnectState { s with healthCheckActive := false }
  { s1 with
    isConnected := false
    isReconnecting := false
    reconnectAttempts := 0 }

/-- Whether a call to `initialize()` (source lines 56-162) reaches the
`new StdioClientTransport` expression at line 98, i.e. spawns a fresh
Transport Handle: it does unless the already-connected guard (line 64)
or the reconnecting guard (line 70) returns early. -/
def initializeSpawnsTransport (s : MCPState) : Bool :=
  if s.isConnected && s.clientPresent then false
  else if s.isReconnecting then false
  else true

/-- The `maxReconnectAttempts` constant of `MCPService` (source line 14). -/
def maxReconnectAttempts : ℕ := 5

/-- A concrete service state as it stands inside `attemptReconnect`'s
`catch` after the fifth consecutive failed attempt, just before
`handleReconnectionFailure()` runs. -/
def failedStateAfterFiveAttempts : MCPState :=
  { clientPresent := false
    transportPresent := false
    isConnected := false
    reconnectAttempts := 5
    isReconnecting := true
    lastConnectionTime := 0
    healthCheckActive := false
    cacheSize := 0 }

/-! ## Bounded wait for an in-flight reconnection
(MCPService.waitForReconnection, source lines 211-222)

The loop sleeps 500 ms per iteration while `isReconnecting` holds and
less than 30000 ms have elapsed.  `rec k` gives the value of
`isReconnecting` observed at the k-th check (time 500·k ms); the
function returns the index at which the loop exits. -/

/-- One `while` loop of `waitForReconnection`, from check index `k`. -/
def waitFromIdx (rec : ℕ → Bool) (k : ℕ) : ℕ :=
  if h : 500 * k < 30000 ∧ rec k = true then waitFromIdx rec (k + 1) else k
termination_by 60 - k
decreasing_by omega

/-- Index at which `waitForReconnection`'s polling loop exits, starting
from its first check. -/
def waitForReconnectionExit (rec : ℕ → Bool) : ℕ := waitFromIdx rec 0

/-- Whether `waitForReconnection` throws its `'等待重连超时'`
(reconnect-timeout) error: it does exactly when `isReconnecting` is
still observed after the loop. -/
def waitForReconnectionTimesOut (rec : ℕ → Bool) : Bool :=
  rec (waitForReconnectionExit rec)

/-- The reconnect-timeout error thrown by `waitForReconnection`
(source line 220). -/
def waitTimeoutError : JsError := ⟨"等待重连超时", ""⟩

/-- Caller-visible outcome of `initialize()` when it is entered while
`isReconnecting` holds (source lines 70-74), together with whether a
failed attempt was recorded in the quality metrics.  When the bounded
wait completes, line 73 returns normally.  When it times out, the
`'等待重连超时'` throw is caught by `initialize()`'s own `catch`
(line 148), which increments `totalConnections`/`failedConnections`
and then — if `reconnectAttempts < maxReconnectAttempts` — awaits
`attemptReconnect()`, a no-op behind its `isReconnecting` guard
(line 666) that never rejects, so `initialize()` resolves normally;
only with the attempt budget exhausted is the error rethrown
(line 159). -/
def initializeWhileReconnecting (rec : ℕ → Bool) (reconnectAttempts : ℕ) :
    Except JsError Unit × Bool :=
  if waitForReconnectionTimesOut rec = false then (.ok (), false)
  else if reconnectAttempts < maxReconnectAttempts then (.ok (), true)
  else (.error waitTimeoutError, true)

/-! ## Uptime in the metrics snapshot
(MCPService.getConnectionQualityMetrics, source lines 476-486) -/

/-- The `uptime` field of `getConnectionQualityMetrics`:
`lastConnectionTime > 0 ? Date.now() - lastConnectionTime : 0`. -/
def metricsUptime (now lastConnectionTime : ℕ) : ℕ :=
  if lastConnectionTime > 0 then now - lastConnectionTime else 0

/-! ## External monitor (ConnectionMonitor, connection-monitor.ts) -/

/-- The metrics snapshot fields `ConnectionMonitor` reads. -/
structure MonitorMetrics where
  isHealthy : Bool
  successRate : ℚ
  consecutiveHealthCheckFailures : ℕ
  totalConnections : ℕ
  deriving Repr, DecidableEq

/-- Transcription of `ConnectionMonitor.shouldTriggerAutoRecovery`
(source lines 122-134). -/
def shouldTriggerAutoRecovery (m : MonitorMetrics) : Bool :=
  if m.consecutiveHealthCheckFailures ≥ 2 then true
  else if m.successRate < 70 ∧ m.totalConnections > 0 then true
  else false

/-- Whether one `performMonitoringCheck` tick (source lines 69-102)
reaches `triggerAutoRecovery()`: line 93 guards it with
`!metrics.isHealthy && this.shouldTriggerAutoRecovery(metrics)`. -/
def monitoringTickTriggersRecovery (m : MonitorMetrics) : Bool :=
  !m.isHealthy && shouldTriggerAutoRecovery m

/-! ## Idle sweep (BrowserService, browser-service.ts) -/

/-- The `BrowserService` fields its keep-alive timer reads and writes.
`mcpConnected` stands for the underlying MCP connection (the Transport
Handle) being open. -/
structure BrowserConnState where
  lastActivityTime : ℕ
  pool : List (String × ℕ)
  mcpConnected : Bool
  deriving Repr, DecidableEq

/-- The `connectionIdleTimeout` constant of `BrowserService`
(source line 67): five minutes. -/
def connectionIdleTimeout : ℕ := 300000

/-- Transcription of `BrowserService.cleanupIdleConnections` (source
lines 177-199): drop pool entries idle past the timeout; when the pool
is then empty, keep the main connection and reset `lastActivityTime` to
now (the "low-power mode" branch).  The MCP connection itself is never
touched and no error escapes (the body is wrapped in try/catch). -/
def cleanupIdleConnections (now : ℕ) (s : BrowserConnState) : BrowserConnState :=
  let pool1 := s.pool.filter (fun e => !(now - e.2 > connectionIdleTimeout))
  if pool1.isEmpty then
    { s with pool := pool1, lastActivityTime := now }
  else
    { s with pool := pool1 }

/-- One tick of the keep-alive timer installed by
`startPersistentConnectionManagement` (source lines 124-156): when the
service has been idle past `connectionIdleTimeout` it runs
`cleanupIdleConnections` and returns; otherwise it health-checks and, on
failure, reconnects (the reconnect's state effect is the explicit
`reconnected` argument). -/
def keepAliveTick (now : ℕ) (healthy : Bool)
    (reconnected : BrowserConnState → BrowserConnState)
    (s : BrowserConnState) : BrowserConnState :=
  if now - s.lastActivityTime > connectionIdleTimeout then
    cleanupIdleConnections now s
  else if !healthy then reconnected s
  else s

/-! ## Instruction translation (GPTService.parseInstructions, gpt-service.ts)

The language-model call and JSON parsing are effects; the model takes
their combined outcome as input: the call failed (API error, timeout, or
empty response — all throw inside the outer `try`), the response did not
parse as JSON, or it parsed into a list of raw steps.  Step `parameters`
objects are opaque values; `id` (a fresh UUID) is dropped. -/

/-- An opaque `parameters` object of a step. -/
inductive StepParams where
  | urlParam (url : String)
  | emptyParams
  | misc (tag : ℕ)
  deriving Repr, DecidableEq

/-- A step as produced by `parsedSteps.map(...)` conversion:
`stepNumber`, `action`, `parameters`, `description`. -/
structure GptTaskStep where
  stepNumber : ℕ
  action : String
  params : StepParams
  descr : String
  deriving Repr, DecidableEq

/-- A raw parsed step before conversion: each field may be missing. -/
structure RawStep where
  action : Option String
  params : Option StepParams
  descr : Option String
  deriving Repr, DecidableEq

/-- Outcome of the language-model call plus JSON extraction, as
`parseInstructions` observes it. -/
inductive TranslationOutcome where
  | apiFailure
  | unparseable
  | parsed (steps : List RawStep)
  deriving Repr, DecidableEq

/-- The tool-name whitelist `validMCPTools` (gpt-service.ts lines
230-237). -/
def validMCPTools : List String :=
  ["list_console_messages", "emulate_cpu", "emulate_network", "click", "drag", "fill",
   "fill_form", "hover", "upload_file", "get_network_request", "list_network_requests",
   "close_page", "handle_dialog", "list_pages", "navigate_page", "navigate_page_history",
   "new_page", "resize_page", "select_page", "performance_analyze_insight",
   "performance_start_trace", "performance_stop_trace", "take_screenshot",
   "evaluate_script", "take_snapshot", "wait_for"]

/-- The trivial two-step plan `parseInstructions` falls back to:
`navigate_page` to the target url, then `take_snapshot` (gpt-service.ts
lines 249-270 and 289-309; descriptions as in the source). -/
def fallbackPlan (url : String) : List GptTaskStep :=
  [⟨1, "navigate_page", .urlParam url, "导航到目标网页"⟩,
   ⟨2, "take_snapshot", .emptyParams, "获取页面快照和可交互元素信息"⟩]

/-- The raw steps `parseInstructions` substitutes when JSON parsing
fails (gpt-service.ts lines 200-215). -/
def parseFailureRawSteps (url : String) : List RawStep :=
  [⟨some "navigate_page", some (.urlParam url), some "导航到目标网页"⟩,
   ⟨some "take_snapshot", some .emptyParams, some "获取页面快照和可交互元素信息"⟩]

/-- Conversion of raw steps to task steps (gpt-service.ts lines 220-227),
carrying the running zero-based index of `parsedSteps.map`. -/
def toTaskStepsFrom (i : ℕ) : List RawStep → List GptTaskStep
  | [] => []
  | r :: rs =>
      { stepNumber := i + 1
        action := r.action.getD "navigate_page"
        params := r.params.getD .emptyParams
        descr := r.descr.getD ("步骤 " ++ toString (i + 1)) } :: toTaskStepsFrom (i + 1) rs

/-- Conversion of raw steps to task steps: defaults `navigate_page` for a
missing action, `{}` for missing parameters, `'步骤 n'` for a missing
description. -/
def toTaskSteps (raws : List RawStep) : List GptTaskStep :=
  toTaskStepsFrom 0 raws

/-- Conversion plus whitelist filtering plus the empty-result fallback
(gpt-service.ts lines 220-272). -/
def processSteps (url : String) (raws : List RawStep) : List GptTaskStep :=
  let validSteps := (toTaskSteps raws).filter (fun t => validMCPTools.contains t.action)
  if validSteps.isEmpty then fallbackPlan url else validSteps

/-- Transcription of `GPTService.parseInstructions` over the observed
translation outcome: an API failure lands in the outer `catch` and
returns the fallback plan; a parse failure substitutes
`parseFailureRawSteps`; a parsed response is converted and filtered. -/
def parseInstructions (url : String) (outcome : TranslationOutcome) :
    List GptTaskStep :=
  match outcome with
  | .apiFailure => fallbackPlan url
  | .unparseable => processSteps url (parseFailureRawSteps url)
  | .parsed raws => processSteps url raws

/-! # Helper lemmas -/

/-- One connect attempt preserves the counter identity
`successful + failed = total`. -/
theorem applyMetricsOp_counter_inv (m : QualityMetrics) (op : MetricsOp)
    (h : m.successfulConnections + m.failedConnections = m.totalConnections) :
    (applyMetricsOp m op).successfulConnections + (applyMetricsOp m op).failedConnections
      = (applyMetricsOp m op).totalConnections := by
  cases op with
  | success ct now =>
    simp only [applyMetricsOp]
    split_ifs <;> simp <;> omega
  | failure =>
    simp only [applyMetricsOp]
    omega

/-- Folding any list of connect attempts preserves the counter
identity. -/
theorem foldl_counter_inv (ops : List MetricsOp) :
    ∀ m : QualityMetrics,
      m.successfulConnections + m.failedConnections = m.totalConnections →
      (ops.foldl applyMetricsOp m).successfulConnections
          + (ops.foldl applyMetricsOp m).failedConnections
        = (ops.foldl applyMetricsOp m).totalConnections := by
  induction ops with
  | nil => intro m h; simpa using h
  | cons op rest ih =>
    intro m h
    simp only [List.foldl_cons]
    exact ih _ (applyMetricsOp_counter_inv m op h)

/-- The polling loop of `waitForReconnection` exits at an index of at
most 60 when started at an index of at most 60. -/
theorem waitFromIdx_le (rec : ℕ → Bool) :
    ∀ d k, 60 - k ≤ d → k ≤ 60 → waitFromIdx rec k ≤ 60 := by
  intro d
  induction d with
  | zero =>
    intro k h1 h2
    have hk : k = 60 := by omega
    rw [waitFromIdx]
    subst hk
    simp
  | succ d ih =>
    intro k h1 h2
    rw [waitFromIdx]
    split
    · next h => exact ih (k + 1) (by omega) (by omega)
    · exact h2

/-- At the index where the polling loop of `waitForReconnection` exits,
its guard no longer holds. -/
theorem waitFromIdx_exit (rec : ℕ → Bool) :
    ∀ d k, 60 - k ≤ d →
      ¬(500 * (waitFromIdx rec k) < 30000 ∧ rec (waitFromIdx rec k) = true) := by
  intro d
  induction d with
  | zero =>
    intro k h1
    rw [waitFromIdx]
    split
    · next h => omega
    · next h => exact h
  | succ d ih =>
    intro k h1
    rw [waitFromIdx]
    split
    · next h => exact ih (k + 1) (by omega)
    · next h => exact h

/-- The first remote-call count of `MCPService.callTool`'s body is at
most one. -/
theorem mcpCallToolBody_calls_le {α : Type} (c : Bool) (f : Except JsError α) :
    (mcpCallToolBody c f).2 ≤ 1 := by
  unfold mcpCallToolBody
  rcases c <;> rcases f <;> simp

/-- The first delegate-call count of `BrowserService.callTool`'s body is
at most one. -/
theorem browserCallToolBody_calls_le {α : Type} (c : Bool) (ce : Option JsError)
    (ca : Bool) (f : Except JsError α) :
    (browserCallToolBody c ce ca f).2 ≤ 1 := by
  unfold browserCallToolBody
  rcases c <;> rcases ce <;> rcases ca <;> rcases f <;> simp

/-! # Claim theorems -/

/-- C1 (counterexample): with 3 attempts, 1 success and 0 fast attempts,
the quality score is 23, which is strictly below `successRate * 70 =
70/3 ≈ 23.33`, so the claimed lower bound `successRate*70 ≤ score`
fails. -/
theorem quality_score_bound_counterexample :
    calculateConnectionQuality ⟨3, 1, 2, 0, 0, 0⟩ = 23 ∧
    ¬ ((((⟨3, 1, 2, 0, 0, 0⟩ : QualityMetrics).successfulConnections : ℚ)
          / ((⟨3, 1, 2, 0, 0, 0⟩ : QualityMetrics).totalConnections : ℚ)) * 70
        ≤ (calculateConnectionQuality ⟨3, 1, 2, 0, 0, 0⟩ : ℚ)) := by
  have h : calculateConnectionQuality ⟨3, 1, 2, 0, 0, 0⟩ = 23 := by
    simp only [calculateConnectionQuality]
    norm_num [round_eq]
  refine ⟨h, ?_⟩
  rw [h]
  norm_num

/-- C1 (amended): the quality score equals
`round(100 * (0.7 * successRate + 0.3 * fastAttemptRate))`; it is 0 when
`totalConnections = 0`, 100 when every attempt succeeded and was fast,
and otherwise lies between `successRate*70 - 1/2` and
`successRate*70 + 30 + 1/2` (the claimed bounds hold only up to the
half-unit rounding slack). -/
theorem quality_score_amended_ok (m : QualityMetrics)
    (hfast : m.fastConnections ≤ m.totalConnections) :
    calculateConnectionQuality m = specQualityScore m ∧
    (m.totalConnections = 0 → calculateConnectionQuality m = 0) ∧
    (m.totalConnections ≠ 0 → m.successfulConnections = m.totalConnections →
      m.fastConnections = m.totalConnections → calculateConnectionQuality m = 100) ∧
    (m.totalConnections ≠ 0 →
      (m.successfulConnections : ℚ) / m.totalConnections * 70 - 1/2
          ≤ (calculateConnectionQuality m : ℚ) ∧
        (calculateConnectionQuality m : ℚ)
          ≤ (m.successfulConnections : ℚ) / m.totalConnections * 70 + 30 + 1/2) := by
  refine ⟨?_, ?_, ?_, ?_⟩
  · simp only [calculateConnectionQuality, specQualityScore]
    split_ifs with h
    · rfl
    · congr 1
      ring
  · intro h
    simp [calculateConnectionQuality, h]
  · intro h0 hs hf
    have hT : ((m.totalConnections : ℚ)) ≠ 0 := by exact_mod_cast h0
    simp only [calculateConnectionQuality, if_neg h0, hs, hf]
    rw [div_self hT]
    norm_num [round_eq]
  · intro h0
    have hT : (0 : ℚ) < m.totalConnections := by
      exact_mod_cast Nat.pos_of_ne_zero h0
    set x : ℚ := (((m.successfulConnections : ℚ) / m.totalConnections) * (7/10)
      + ((m.fastConnections : ℚ) / m.totalConnections) * (3/10)) * 100 with hx
    have hcq : (calculateConnectionQuality m : ℚ) = (round x : ℚ) := by
      simp only [calculateConnectionQuality, if_neg h0]
    have habs := abs_sub_round x
    have h1 : x - 1/2 ≤ (round x : ℚ) := by linarith [abs_le.mp habs]
    have h2 : (round x : ℚ) ≤ x + 1/2 := by linarith [abs_le.mp habs]
    have hfr0 : (0 : ℚ) ≤ (m.fastConnections : ℚ) / m.totalConnections := by positivity
    have hfr1 : (m.fastConnections : ℚ) / m.totalConnections ≤ 1 := by
      rw [div_le_one hT]
      exact_mod_cast hfast
    constructor
    · rw [hcq]; nlinarith
    · rw [hcq]; nlinarith

/-- C1 (witness): the amended statement instantiated at 4 attempts, 2
successes, 1 fast. -/
theorem quality_score_amended_ok_witness :
    (⟨4, 2, 2, 0, 1, 0⟩ : QualityMetrics).fastConnections
        ≤ (⟨4, 2, 2, 0, 1, 0⟩ : QualityMetrics).totalConnections ∧
    (calculateConnectionQuality ⟨4, 2, 2, 0, 1, 0⟩ = specQualityScore ⟨4, 2, 2, 0, 1, 0⟩ ∧
      ((⟨4, 2, 2, 0, 1, 0⟩ : QualityMetrics).totalConnections = 0 →
        calculateConnectionQuality ⟨4, 2, 2, 0, 1, 0⟩ = 0) ∧
      ((⟨4, 2, 2, 0, 1, 0⟩ : QualityMetrics).totalConnections ≠ 0 →
        (⟨4, 2, 2, 0, 1, 0⟩ : QualityMetrics).successfulConnections
            = (⟨4, 2, 2, 0, 1, 0⟩ : QualityMetrics).totalConnections →
        (⟨4, 2, 2, 0, 1, 0⟩ : QualityMetrics).fastConnections
            = (⟨4, 2, 2, 0, 1, 0⟩ : QualityMetrics).totalConnections →
        calculateConnectionQuality ⟨4, 2, 2, 0, 1, 0⟩ = 100) ∧
      ((⟨4, 2, 2, 0, 1, 0⟩ : QualityMetrics).totalConnections ≠ 0 →
        ((⟨4, 2, 2, 0, 1, 0⟩ : QualityMetrics).successfulConnections : ℚ)
              / (⟨4, 2, 2, 0, 1, 0⟩ : QualityMetrics).totalConnections * 70 - 1/2
            ≤ (calculateConnectionQuality ⟨4, 2, 2, 0, 1, 0⟩ : ℚ) ∧
          (calculateConnectionQuality ⟨4, 2, 2, 0, 1, 0⟩ : ℚ)
            ≤ ((⟨4, 2, 2, 0, 1, 0⟩ : QualityMetrics).successfulConnections : ℚ)
              / (⟨4, 2, 2, 0, 1, 0⟩ : QualityMetrics).totalConnections * 70 + 30 + 1/2)) :=
  ⟨by decide, quality_score_amended_ok ⟨4, 2, 2, 0, 1, 0⟩ (by decide)⟩

/-- C2 (counterexample): immediately after the fifth consecutive failed
attempt is handled by `handleReconnectionFailure`, the attempt counter
has been reset to 0 automatically (no operator reset happened), and a
further `connect()` call does reach the `new StdioClientTransport`
spawn.  Both halves of the claimed terminal-FAILED behaviour are false
on this state. -/
theorem failed_recovery_counterexample :
    (handleReconnectionFailure failedStateAfterFiveAttempts).reconnectAttempts = 0 ∧
    initializeSpawnsTransport (handleReconnectionFailure failedStateAfterFiveAttempts)
      = true := by
  exact ⟨rfl, rfl⟩

/-- C2 (amended): after `maxAttempts` consecutive failed connect
attempts, `handleReconnectionFailure` itself clears the attempt counter,
marks the service disconnected and not reconnecting, and drops the
transport; consequently a further `connect()` call immediately spawns a
fresh Transport Handle — there is no terminal FAILED state and no
explicit operator reset is required. -/
theorem failed_recovery_amended_ok (s : MCPState) :
    (handleReconnectionFailure s).reconnectAttempts = 0 ∧
    (handleReconnectionFailure s).isConnected = false ∧
    (handleReconnectionFailure s).isReconnecting = false ∧
    (handleReconnectionFailure s).transportPresent = false ∧
    initializeSpawnsTransport (handleReconnectionFailure s) = true := by
  exact ⟨rfl, rfl, rfl, rfl, rfl⟩

/-- C3: the backoff delay is exactly the spec's
`min(base * 2^(attempt-1) + jitter, 30000)`, never exceeds the 30-second
cap, and (ignoring jitter) is non-decreasing in the attempt number. -/
theorem backoff_delay_ok (base jitter : ℚ) (m n : ℕ)
    (hbase : 0 ≤ base) (hjitter : 0 ≤ jitter) (hjitter2 : jitter < 1000)
    (hm : 1 ≤ m) (hmn : m ≤ n) :
    calculateReconnectDelay base n jitter = specBackoffDelay base n jitter 30000 ∧
    calculateReconnectDelay base n jitter ≤ 30000 ∧
    calculateReconnectDelay base m 0 ≤ calculateReconnectDelay base n 0 := by
  refine ⟨rfl, min_le_right _ _, ?_⟩
  unfold calculateReconnectDelay
  simp only [add_zero]
  refine min_le_min ?_ le_rfl
  exact mul_le_mul_of_nonneg_left
    (pow_le_pow_right₀ one_le_two (Nat.sub_le_sub_right hmn 1)) hbase

/-- C3 (witness): the backoff statement instantiated at base 1000 ms,
jitter 500 ms, attempts 1 and 3. -/
theorem backoff_delay_ok_witness :
    (0 : ℚ) ≤ 1000 ∧ (0 : ℚ) ≤ 500 ∧ (500 : ℚ) < 1000 ∧ 1 ≤ 1 ∧ 1 ≤ 3 ∧
    (calculateReconnectDelay 1000 3 500 = specBackoffDelay 1000 3 500 30000 ∧
      calculateReconnectDelay 1000 3 500 ≤ 30000 ∧
      calculateReconnectDelay 1000 1 0 ≤ calculateReconnectDelay 1000 3 0) :=
  ⟨by norm_num, by norm_num, by norm_num, by norm_num, by norm_num,
    backoff_delay_ok 1000 500 1 3 (by norm_num) (by norm_num) (by norm_num)
      (by norm_num) (by norm_num)⟩

/-- C4 (counterexample): in `MCPService.callTool`, when the first remote
call fails with a connection-classified error and the single retry then
fails with a different error, the caller receives the ORIGINAL error,
not the retry's failure: the retry error `boom` is swallowed by the
inner `catch (reconnectError)` and `connection reset` is rethrown. -/
theorem invoke_retry_counterexample :
    mcpCallTool (α := Unit) true (Except.error ⟨"connection reset", ""⟩) false true
        (Except.error ⟨"boom", ""⟩)
      = (Except.error ⟨"connection reset", ""⟩, 2) ∧
    (⟨"connection reset", ""⟩ : JsError) ≠ (⟨"boom", ""⟩ : JsError) := by
  exact ⟨rfl, by decide⟩

/-- C4 (amended): both gateways issue the remote call once and perform
at most one reconnect-and-retry cycle (never more than two remote
calls); an error that does not match the heuristic is propagated with no
retry; when the single retry fails, `BrowserService.callTool` propagates
the retry's error verbatim, while `MCPService.callTool` propagates the
original first-call error instead of the retry's. -/
theorem invoke_retry_amended_ok {α : Type} (e1 e2 e3 : JsError) (r : α)
    (h1 : isConnectionError e1 = true)
    (h2 : browserIsConnectionError e1 = true)
    (h3 : isConnectionError e3 = false) :
    mcpCallTool true (Except.ok r) false true (Except.error e2) = (Except.ok r, 1) ∧
    (∀ (rt ca : Bool) (ry : Except JsError α),
      mcpCallTool true (Except.error e3) rt ca ry = (Except.error e3, 1)) ∧
    mcpCallTool (α := α) true (Except.error e1) false true (Except.error e2)
      = (Except.error e1, 2) ∧
    browserCallTool (α := α) true none true (Except.error e1) none (Except.error e2)
      = (Except.error e2, 2) ∧
    (∀ (c : Bool) (f : Except JsError α) (rt ca : Bool) (ry : Except JsError α),
      (mcpCallTool c f rt ca ry).2 ≤ 2) ∧
    (∀ (c : Bool) (ce : Option JsError) (ca : Bool) (f : Except JsError α)
        (re : Option JsError) (ry : Except JsError α),
      (browserCallTool c ce ca f re ry).2 ≤ 2) := by
  refine ⟨?_, ?_, ?_, ?_, ?_, ?_⟩
  · rfl
  · intro rt ca ry
    simp [mcpCallTool, mcpCallToolBody, h3]
  · simp [mcpCallTool, mcpCallToolBody, h1]
  · simp [browserCallTool, browserCallToolBody, h2]
  · intro c f rt ca ry
    rcases c <;> rcases f <;> rcases rt <;> rcases ca <;> rcases ry <;>
      simp [mcpCallTool, mcpCallToolBody] <;> split_ifs <;> simp
  · intro c ce ca f re ry
    rcases c <;> rcases ce <;> rcases ca <;> rcases f <;> rcases re <;> rcases ry <;>
      simp [browserCallTool, browserCallToolBody] <;> split_ifs <;> simp

/-- C4 (witness): the amended statement instantiated with a
connection-classified first error, a distinct retry error, and a
non-connection error. -/
theorem invoke_retry_amended_ok_witness :
    isConnectionError ⟨"connection reset", ""⟩ = true ∧
    browserIsConnectionError ⟨"connection reset", ""⟩ = true ∧
    isConnectionError ⟨"boom", ""⟩ = false ∧
    (mcpCallTool true (Except.ok (0 : ℕ)) false true (Except.error ⟨"bang", ""⟩)
        = (Except.ok (0 : ℕ), 1) ∧
      (∀ (rt ca : Bool) (ry : Except JsError ℕ),
        mcpCallTool true (Except.error ⟨"boom", ""⟩) rt ca ry
          = (Except.error ⟨"boom", ""⟩, 1)) ∧
      mcpCallTool (α := ℕ) true (Except.error ⟨"connection reset", ""⟩) false true
          (Except.error ⟨"bang", ""⟩)
        = (Except.error ⟨"connection reset", ""⟩, 2) ∧
      browserCallTool (α := ℕ) true none true (Except.error ⟨"connection reset", ""⟩) none
          (Except.error ⟨"bang", ""⟩)
        = (Except.error ⟨"bang", ""⟩, 2) ∧
      (∀ (c : Bool) (f : Except JsError ℕ) (rt ca : Bool) (ry : Except JsError ℕ),
        (mcpCallTool c f rt ca ry).2 ≤ 2) ∧
      (∀ (c : Bool) (ce : Option JsError) (ca : Bool) (f : Except JsError ℕ)
          (re : Option JsError) (ry : Except JsError ℕ),
        (browserCallTool c ce ca f re ry).2 ≤ 2)) :=
  ⟨by decide, by decide, by decide,
    invoke_retry_amended_ok ⟨"connection reset", ""⟩ ⟨"bang", ""⟩ ⟨"boom", ""⟩ 0
      (by decide) (by decide) (by decide)⟩

/-- C5: starting from the all-zero record, every history of connect
attempts (each incrementing `totalConnections` together with exactly one
of `successfulConnections` or `failedConnections`) preserves
`successfulConnections + failedConnections = totalConnections`. -/
theorem metrics_counter_invariant_ok (ops : List MetricsOp) :
    (runMetrics ops).successfulConnections + (runMetrics ops).failedConnections
      = (runMetrics ops).totalConnections :=
  foldl_counter_inv ops QualityMetrics.init rfl

/-- C6 (counterexample): with an in-flight reconnection that never
completes (`isReconnecting` observed true at every poll) and one
reconnect attempt consumed, the bounded wait does time out, yet the
`connect()` call resolves normally: the `'等待重连超时'` throw is
swallowed by `initialize()`'s catch, which merely records a failed
attempt and no-ops through `attemptReconnect()`'s `isReconnecting`
guard.  The caller never sees the claimed reconnect-timeout failure. -/
theorem reconnect_wait_counterexample :
    waitForReconnectionTimesOut (fun _ : ℕ => true) = true ∧
    initializeWhileReconnecting (fun _ : ℕ => true) 1 = (Except.ok (), true) := by
  exact ⟨rfl, rfl⟩

/-- C6 (amended): a `connect()` call arriving while `isReconnecting`
holds spawns no Transport Handle; the bounded wait polls at most 60
times (500 ms each, at most 30 s), and `waitForReconnection` throws the
reconnect-timeout error exactly when `isReconnecting` still holds at
loop exit, which only happens at the full 30-second bound.  That error
is caller-visible only when the attempt budget is already exhausted:
with `reconnectAttempts < 5` the catch in `initialize()` swallows it
(recording a failed attempt in the metrics) and the call resolves
normally; when the wait completes in time the call resolves normally
with no metrics change. -/
theorem reconnect_wait_amended_ok (rec : ℕ → Bool) (s : MCPState) (n : ℕ)
    (hs : s.isReconnecting = true) :
    initializeSpawnsTransport s = false ∧
    500 * waitForReconnectionExit rec ≤ 30000 ∧
    (waitForReconnectionTimesOut rec = true → waitForReconnectionExit rec = 60) ∧
    (waitForReconnectionTimesOut rec = false →
      initializeWhileReconnecting rec n = (Except.ok (), false)) ∧
    (waitForReconnectionTimesOut rec = true → n < maxReconnectAttempts →
      initializeWhileReconnecting rec n = (Except.ok (), true)) ∧
    (waitForReconnectionTimesOut rec = true → maxReconnectAttempts ≤ n →
      initializeWhileReconnecting rec n = (Except.error waitTimeoutError, true)) := by
  have hle : waitForReconnectionExit rec ≤ 60 :=
    waitFromIdx_le rec 60 0 (by omega) (by omega)
  have hexit := waitFromIdx_exit rec 60 0 (by omega)
  refine ⟨?_, by omega, ?_, ?_, ?_, ?_⟩
  · simp [initializeSpawnsTransport, hs]
  · intro ht
    unfold waitForReconnectionTimesOut waitForReconnectionExit at ht
    unfold waitForReconnectionExit at hle ⊢
    have h60 : ¬ (500 * waitFromIdx rec 0 < 30000) := fun hlt => hexit ⟨hlt, ht⟩
    omega
  · intro ht
    simp [initializeWhileReconnecting, ht]
  · intro ht hn
    simp [initializeWhileReconnecting, ht, hn]
  · intro ht hn
    simp [initializeWhileReconnecting, ht]
    omega

/-- C6 (witness): the amended bounded-wait statement instantiated with a
reconnection that is already over at the first poll, one consumed
attempt, and a state that is mid-reconnection. -/
theorem reconnect_wait_amended_ok_witness :
    ((⟨false, false, false, 1, true, 0, false, 0⟩ : MCPState).isReconnecting = true) ∧
    (initializeSpawnsTransport ⟨false, false, false, 1, true, 0, false, 0⟩ = false ∧
      500 * waitForReconnectionExit (fun _ => false) ≤ 30000 ∧
      (waitForReconnectionTimesOut (fun _ => false) = true →
        waitForReconnectionExit (fun _ => false) = 60) ∧
      (waitForReconnectionTimesOut (fun _ => false) = false →
        initializeWhileReconnecting (fun _ => false) 1 = (Except.ok (), false)) ∧
      (waitForReconnectionTimesOut (fun _ => false) = true → 1 < maxReconnectAttempts →
        initializeWhileReconnecting (fun _ => false) 1 = (Except.ok (), true)) ∧
      (waitForReconnectionTimesOut (fun _ => false) = true → maxReconnectAttempts ≤ 1 →
        initializeWhileReconnecting (fun _ => false) 1
          = (Except.error waitTimeoutError, true))) :=
  ⟨rfl, reconnect_wait_amended_ok (fun _ => false)
    ⟨false, false, false, 1, true, 0, false, 0⟩ 1 rfl⟩

/-- C7 (counterexample): a tick whose metrics read healthy with exactly
two consecutive health-check failures satisfies the claim's trigger
condition, yet `performMonitoringCheck` does not trigger recovery
because line 93 additionally requires `!metrics.isHealthy`. -/
theorem auto_recovery_counterexample :
    ¬ (monitoringTickTriggersRecovery ⟨true, 100, 2, 1⟩ = true ↔
        (2 ≤ (⟨true, 100, 2, 1⟩ : MonitorMetrics).consecutiveHealthCheckFailures ∨
          ((⟨true, 100, 2, 1⟩ : MonitorMetrics).successRate < 70 ∧
            0 < (⟨true, 100, 2, 1⟩ : MonitorMetrics).totalConnections))) := by
  norm_num [monitoringTickTriggersRecovery, shouldTriggerAutoRecovery]

/-- C7 (amended): a polling tick forces the disconnect/reconnect cycle
iff the metrics read unhealthy AND (`consecutiveFailures ≥ 2` or
(`successRate < 70` and at least one attempt was ever made)); under
every other reading the connection is left untouched. -/
theorem auto_recovery_amended_ok (m : MonitorMetrics) :
    monitoringTickTriggersRecovery m = true ↔
      (m.isHealthy = false ∧
        (2 ≤ m.consecutiveHealthCheckFailures ∨
          (m.successRate < 70 ∧ 0 < m.totalConnections))) := by
  rcases m with ⟨h, sr, cf, tc⟩
  unfold monitoringTickTriggersRecovery shouldTriggerAutoRecovery
  rcases h <;> simp <;> split_ifs <;> simp_all <;> omega

/-- C8 (counterexample): a state idle past the five-minute timeout with
an empty connection pool still has its MCP connection (the Transport
Handle) open after the sweep runs — the sweep does not release it,
contrary to the claim. -/
theorem idle_sweep_counterexample :
    300001 - (⟨0, [], true⟩ : BrowserConnState).lastActivityTime > connectionIdleTimeout ∧
    (⟨0, [], true⟩ : BrowserConnState).pool = [] ∧
    (keepAliveTick 300001 true id ⟨0, [], true⟩).mcpConnected = true := by
  exact ⟨by decide, rfl, rfl⟩

/-- C8 (amended): once the service has been idle past the five-minute
timeout, the sweep removes idle pooled entries and — with zero pooled
consumers left — keeps the Transport Handle open, merely resetting the
activity clock to now (the source's "low-power mode"); no error is
raised (the sweep is a total state transformation wrapped in
try/catch). -/
theorem idle_sweep_amended_ok (s : BrowserConnState) (now : ℕ) (healthy : Bool)
    (reconnected : BrowserConnState → BrowserConnState)
    (hidle : now - s.lastActivityTime > connectionIdleTimeout) :
    (keepAliveTick now healthy reconnected s).mcpConnected = s.mcpConnected ∧
    (keepAliveTick now healthy reconnected s).pool
      = s.pool.filter (fun e => !(now - e.2 > connectionIdleTimeout)) ∧
    ((s.pool.filter (fun e => !(now - e.2 > connectionIdleTimeout))).isEmpty = true →
      (keepAliveTick now healthy reconnected s).lastActivityTime = now) := by
  unfold keepAliveTick cleanupIdleConnections
  rw [if_pos hidle]
  dsimp only
  split_ifs with hpool
  · exact ⟨rfl, rfl, fun _ => rfl⟩
  · exact ⟨rfl, rfl, fun h => absurd h hpool⟩

/-- C8 (witness): the amended idle-sweep statement instantiated at an
idle state with an empty pool. -/
theorem idle_sweep_amended_ok_witness :
    300001 - (⟨0, [("k", 0)], true⟩ : BrowserConnState).lastActivityTime
        > connectionIdleTimeout ∧
    ((keepAliveTick 300001 true id ⟨0, [("k", 0)], true⟩).mcpConnected
        = (⟨0, [("k", 0)], true⟩ : BrowserConnState).mcpConnected ∧
      (keepAliveTick 300001 true id ⟨0, [("k", 0)], true⟩).pool
        = (⟨0, [("k", 0)], true⟩ : BrowserConnState).pool.filter
            (fun e => !(300001 - e.2 > connectionIdleTimeout)) ∧
      (((⟨0, [("k", 0)], true⟩ : BrowserConnState).pool.filter
            (fun e => !(300001 - e.2 > connectionIdleTimeout))).isEmpty = true →
        (keepAliveTick 300001 true id ⟨0, [("k", 0)], true⟩).lastActivityTime = 300001)) :=
  ⟨by decide, idle_sweep_amended_ok ⟨0, [("k", 0)], true⟩ 300001 true id (by decide)⟩

/-- C9: whenever translation fails — the language-model call raised (API
error, timeout, empty response), the response was unparseable, or no
parsed step survived the tool-name whitelist — `parseInstructions`
returns the trivial two-step fallback plan (`navigate_page` to the
target url, then `take_snapshot`) instead of raising. -/
theorem translation_fallback_ok (url : String) (raws : List RawStep)
    (hnone : ((toTaskSteps raws).filter
        (fun t => validMCPTools.contains t.action)).isEmpty = true) :
    parseInstructions url .apiFailure = fallbackPlan url ∧
    parseInstructions url .unparseable = fallbackPlan url ∧
    parseInstructions url (.parsed raws) = fallbackPlan url := by
  refine ⟨rfl, rfl, ?_⟩
  simp only [parseInstructions, processSteps]
  rw [if_pos hnone]

/-- C9 (witness): the fallback statement instantiated at a parse result
whose only step names a nonexistent tool. -/
theorem translation_fallback_ok_witness :
    ((toTaskSteps [⟨some "bogus", none, none⟩]).filter
        (fun t => validMCPTools.contains t.action)).isEmpty = true ∧
    (parseInstructions "https://example.com" .apiFailure
        = fallbackPlan "https://example.com" ∧
      parseInstructions "https://example.com" .unparseable
        = fallbackPlan "https://example.com" ∧
      parseInstructions "https://example.com" (.parsed [⟨some "bogus", none, none⟩])
        = fallbackPlan "https://example.com") :=
  ⟨by decide, translation_fallback_ok "https://example.com"
    [⟨some "bogus", none, none⟩] (by decide)⟩

/-- C10: the `uptime` field of the metrics snapshot is 0 when
`lastConnectionTime` is 0 (no connection ever succeeded) and otherwise
is the elapsed time since the last successful connect; neither
`disconnect`, `forceDisconnect` nor `handleReconnectionFailure` clears
`lastConnectionTime`, so this holds even after the connection closes. -/
theorem metrics_uptime_ok (now : ℕ) (s : MCPState) :
    metricsUptime now 0 = 0 ∧
    (∀ l : ℕ, metricsUptime now (l + 1) = now - (l + 1)) ∧
    (disconnectState s).lastConnectionTime = s.lastConnectionTime ∧
    (forceDisconnectState s).lastConnectionTime = s.lastConnectionTime ∧
    (handleReconnectionFailure s).lastConnectionTime = s.lastConnectionTime := by
  exact ⟨rfl, fun l => by simp [metricsUptime], rfl, rfl, rfl⟩

end BrowserRobot
